import Mathlib

/-!
Shallow embedding of `src/ptrace.py`: the ICMP checksum engine
(`ICMPPacket._calculate_checksum`), the packet codec (`ICMPPacket.create`),
and the traceroute driver loop (`Traceroute.run`), together with a
reference model of the RFC 1071 Internet checksum taken from the
specification, used to compare the two.

Byte buffers are `List Nat` whose elements are byte values (0..255, as
Python `bytes` guarantees).  Python `x >> 16` on a nonnegative int is
division by 65536 and `x & 0xffff` is reduction mod 65536; both are
written with `/` and `%` here.  The 64-bit float timestamp is modelled
by its IEEE 754 bit pattern, a natural number below 2^64, since the
code only moves it through `struct.pack("d", ...)` byte serialization.
-/

namespace ICMPPacket

/-- Word-summation loop of `ICMPPacket._calculate_checksum`
(src/ptrace.py lines 28-33): for i in range(0, len(packet), 2),
add `packet[i] + (packet[i+1] << 8)` when a high byte exists,
otherwise add the lone trailing byte. -/
def sumWords : List Nat → Nat
  | [] => 0
  | [b] => b
  | b0 :: b1 :: rest => b0 + b1 * 256 + sumWords rest

/-- Python `~c & 0xffff` for a nonnegative int `c`: the bitwise
complement of `c` reduced to the low 16 bits. -/
def notMask16 (c : Nat) : Nat := 65535 - c % 65536

/-- Justification that `notMask16` is Python `~c & 0xffff`: over the
integers, it equals `(-c - 1) mod 65536`. -/
theorem notMask16_eq_int (c : Nat) :
    (notMask16 c : Int) = (-(c : Int) - 1) % 65536 := by
  unfold notMask16
  omega

/-- Translation of `ICMPPacket._calculate_checksum` (src/ptrace.py
lines 26-35): sum the 16-bit little-endian words, fold the carry out of
the low 16 bits back in ONCE (`checksum = (checksum >> 16) +
(checksum & 0xffff)`), then return `~checksum & 0xffff`. -/
def calculateChecksum (packet : List Nat) : Nat :=
  notMask16 (sumWords packet / 65536 + sumWords packet % 65536)

/-- Python `struct.pack("bbHHh", 8, 0, cksum, idv, 1)` on a
little-endian host (src/ptrace.py lines 16 and 23): bytes
`[8, 0, lo cksum, hi cksum, lo idv, hi idv, 1, 0]`. -/
def packHeader (cksum idv : Nat) : List Nat :=
  [8, 0, cksum % 256, cksum / 256 % 256, idv % 256, idv / 256 % 256, 1, 0]

/-- Python `struct.pack("d", ts)` on a little-endian host
(src/ptrace.py line 17), with the float given by its 64-bit pattern:
the eight bytes of `ts`, least significant first. -/
def packDouble (ts : Nat) : List Nat :=
  [ts % 256, ts / 256 % 256, ts / 65536 % 256, ts / 16777216 % 256,
   ts / 4294967296 % 256, ts / 1099511627776 % 256,
   ts / 281474976710656 % 256, ts / 72057594037927936 % 256]

/-- The intermediate buffer `header + data` built with checksum field
zero (src/ptrace.py lines 16-17), over which the checksum is computed. -/
def prechecksumPacket (idv ts : Nat) : List Nat :=
  packHeader 0 idv ++ packDouble ts

/-- Translation of `ICMPPacket.create` (src/ptrace.py lines 13-24):
build the header with checksum 0, compute the checksum over
header + data, rebuild the header with that checksum, return
header + data. -/
def create (idv ts : Nat) : List Nat :=
  packHeader (calculateChecksum (prechecksumPacket idv ts)) idv ++ packDouble ts

/-- Decoder for the type field: byte 0. -/
def decodeType (p : List Nat) : Nat := p.getD 0 0

/-- Decoder for the code field: byte 1. -/
def decodeCode (p : List Nat) : Nat := p.getD 1 0

/-- Decoder for the identifier field: bytes 4-5, little endian. -/
def decodeId (p : List Nat) : Nat := p.getD 4 0 + p.getD 5 0 * 256

/-- Decoder for the sequence field: bytes 6-7, little endian. -/
def decodeSeq (p : List Nat) : Nat := p.getD 6 0 + p.getD 7 0 * 256

/-- Inverse of `packDouble`: reassemble the 64-bit pattern from eight
little-endian bytes. -/
def unpackDouble (bs : List Nat) : Nat :=
  bs.getD 0 0 + bs.getD 1 0 * 256 + bs.getD 2 0 * 65536 +
  bs.getD 3 0 * 16777216 + bs.getD 4 0 * 4294967296 +
  bs.getD 5 0 * 1099511627776 + bs.getD 6 0 * 281474976710656 +
  bs.getD 7 0 * 72057594037927936

/-- Decoder for the payload: bytes 8-15 as a 64-bit pattern. -/
def decodePayload (p : List Nat) : Nat := unpackDouble (p.drop 8)

/-- Writing a computed checksum into the checksum field (bytes 2-3,
little endian) of a buffer, as `create` does when it rebuilds the
header. -/
def insertChecksumField (B : List Nat) (ck : Nat) : List Nat :=
  B.take 2 ++ [ck % 256, ck / 256 % 256] ++ B.drop 4

end ICMPPacket

namespace Rfc1071

/-- Modelled from the spec (section 4.1): fold any carry out of the
16-bit accumulator back into the low 16 bits REPEATEDLY until no carry
remains.  Each step strictly decreases the argument while it is at
least 65536, so the recursion terminates. -/
def foldCarry (x : Nat) : Nat :=
  if h : x < 65536 then x else foldCarry (x / 65536 + x % 65536)
termination_by x
decreasing_by omega

/-- Modelled from the spec (section 4.1, RFC 1071): sum the 16-bit
words exactly as the code does, fold carries until none remain, and
return the ones complement of the fully folded 16-bit sum. -/
def checksum (packet : List Nat) : Nat :=
  65535 - foldCarry (ICMPPacket.sumWords packet)

end Rfc1071

namespace Traceroute

/-- Outcome of one hop attempt, as seen by the transport: a datagram
arrives from some address, the receive times out (`socket.timeout`), a
transport error is raised during `set_ttl` or `send_packet` (before
the try block, src/ptrace.py lines 98-101), or a non-timeout error is
raised during `receive` (inside the try block, line 105). -/
inductive HopOutcome (α : Type) where
  | success (addr : α)
  | timeout
  | sendError
  | receiveError
deriving DecidableEq

/-- One emitted hop line: the TTL, the responder address when one was
received, and whether the responder was the destination. -/
structure HopResult (α : Type) where
  ttl : Nat
  responder : Option α
  isFinal : Bool
deriving DecidableEq

/-- Observable trace of `Traceroute.run`: socket opens and closes,
loop iterations entered, the TTL of each packet actually sent, the hop
lines produced, and whether an uncaught exception escaped the loop. -/
structure RunTrace (α : Type) where
  opens : Nat
  closes : Nat
  hopsAttempted : Nat
  probes : List Nat
  results : List (HopResult α)
  aborted : Bool
deriving DecidableEq

/-- Trace of a loop that never starts. -/
def emptyTrace {α : Type} : RunTrace α := ⟨0, 0, 0, [], [], false⟩

/-- Prefixing one completed (opened, probed, closed) hop onto the
trace of the remaining iterations. -/
def consTrace {α : Type} (hop : HopResult α) (ttl : Nat) (rest : RunTrace α) :
    RunTrace α :=
  ⟨1 + rest.opens, 1 + rest.closes, 1 + rest.hopsAttempted,
   ttl :: rest.probes, hop :: rest.results, rest.aborted⟩

/-- Translation of the loop body of `Traceroute.run` (src/ptrace.py
lines 96-120), driven by an outcome oracle per TTL.  Each iteration
opens a socket, sets the TTL and sends (outside the try block: a
transport error there escapes with the socket left open), then
receives inside try/finally: a timeout prints a starred line and
continues, a datagram from the destination prints a final line and
breaks, any other datagram prints a line and continues, and a
non-timeout receive error closes the socket in the finally block and
escapes. -/
def runLoop {α : Type} [DecidableEq α] (dest : α)
    (outcome : Nat → HopOutcome α) : Nat → Nat → RunTrace α
  | _, 0 => emptyTrace
  | ttl, remaining + 1 =>
    match outcome ttl with
    | HopOutcome.sendError => ⟨1, 0, 1, [], [], true⟩
    | HopOutcome.receiveError => ⟨1, 1, 1, [ttl], [], true⟩
    | HopOutcome.timeout =>
        consTrace ⟨ttl, none, false⟩ ttl (runLoop dest outcome (ttl + 1) remaining)
    | HopOutcome.success a =>
        if a = dest then ⟨1, 1, 1, [ttl], [⟨ttl, some a, true⟩], false⟩
        else consTrace ⟨ttl, some a, false⟩ ttl
          (runLoop dest outcome (ttl + 1) remaining)

/-- Translation of the probing phase of `Traceroute.run`: the loop
`for ttl in range(1, max_hops + 1)`. -/
def run {α : Type} [DecidableEq α] (dest : α) (outcome : Nat → HopOutcome α)
    (maxHops : Nat) : RunTrace α :=
  runLoop dest outcome 1 maxHops

/-- Whether an outcome lets the loop continue to the next TTL: a
timeout, or a datagram from an address other than the destination. -/
def isNonFinal {α : Type} [DecidableEq α] (dest : α) : HopOutcome α → Bool
  | HopOutcome.timeout => true
  | HopOutcome.success a => if a = dest then false else true
  | _ => false

/-- Result of a whole invocation: the process exit code and the trace
of the probing loop. -/
structure MainResult (α : Type) where
  exitCode : Nat
  trace : RunTrace α
deriving DecidableEq

/-- Translation of `Traceroute.run` from the top (src/ptrace.py lines
88-120) together with the `__main__` tail (lines 122-128): if forward
resolution returns no address, `run` prints the failure and plainly
returns, and the script then finishes with the implicit exit code 0;
otherwise the probing loop runs, and an exception escaping it
terminates the interpreter with a nonzero exit code. -/
def tracerouteMain {α : Type} [DecidableEq α] (resolved : Option α)
    (outcome : Nat → HopOutcome α) (maxHops : Nat) : MainResult α :=
  match resolved with
  | none => ⟨0, emptyTrace⟩
  | some dest =>
      let t := run dest outcome maxHops
      ⟨if t.aborted then 1 else 0, t⟩

/-- Concrete outcome oracle used by the early-termination witness: the
destination (address 7) answers on the third attempt, earlier hops
time out. -/
def demoOutcome : Nat → HopOutcome Nat :=
  fun t => if t = 3 then HopOutcome.success 7 else HopOutcome.timeout

end Traceroute

/-- Outcome oracle for counterexamples and witnesses: every hop times
out. -/
def alwaysTimeout : Nat → Traceroute.HopOutcome Nat :=
  fun _ => Traceroute.HopOutcome.timeout

/-- Outcome oracle for the resource-discipline counterexample: the
transport raises during send on every hop. -/
def alwaysSendError : Nat → Traceroute.HopOutcome Nat :=
  fun _ => Traceroute.HopOutcome.sendError

/-- Appending to a buffer of even length adds the sums of the parts:
the word loop never straddles the boundary. -/
theorem sumWords_append_even :
    ∀ (B L : List Nat), B.length % 2 = 0 →
      ICMPPacket.sumWords (B ++ L) = ICMPPacket.sumWords B + ICMPPacket.sumWords L
  | [], L, _ => by simp [ICMPPacket.sumWords]
  | [b], L, h => by simp at h
  | b0 :: b1 :: rest, L, h => by
    have ih := sumWords_append_even rest L (by simp only [List.length_cons] at h; omega)
    show b0 + b1 * 256 + ICMPPacket.sumWords (rest ++ L) =
      b0 + b1 * 256 + ICMPPacket.sumWords rest + ICMPPacket.sumWords L
    rw [ih]
    omega

/-- Normal form of an encoded packet: the sixteen bytes of `create`
with the checksum subterm left opaque. -/
theorem ICMPPacket.create_eq (idv ts : Nat) :
    ICMPPacket.create idv ts =
      [8, 0, ICMPPacket.calculateChecksum (ICMPPacket.prechecksumPacket idv ts) % 256,
       ICMPPacket.calculateChecksum (ICMPPacket.prechecksumPacket idv ts) / 256 % 256,
       idv % 256, idv / 256 % 256, 1, 0,
       ts % 256, ts / 256 % 256, ts / 65536 % 256, ts / 16777216 % 256,
       ts / 4294967296 % 256, ts / 1099511627776 % 256,
       ts / 281474976710656 % 256, ts / 72057594037927936 % 256] := by
  simp [ICMPPacket.create, ICMPPacket.packHeader, ICMPPacket.packDouble]

/-- Normal form of the intermediate zero-checksum packet: its sixteen
bytes. -/
theorem ICMPPacket.prechecksumPacket_eq (idv ts : Nat) :
    ICMPPacket.prechecksumPacket idv ts =
      [8, 0, 0, 0, idv % 256, idv / 256 % 256, 1, 0,
       ts % 256, ts / 256 % 256, ts / 65536 % 256, ts / 16777216 % 256,
       ts / 4294967296 % 256, ts / 1099511627776 % 256,
       ts / 281474976710656 % 256, ts / 72057594037927936 % 256] := by
  simp [ICMPPacket.prechecksumPacket, ICMPPacket.packHeader, ICMPPacket.packDouble]

/-- Claim C9: `_calculate_checksum` is total on arbitrary byte buffers
and always returns a value in [0, 0xFFFF]; the empty buffer yields
0xFFFF. -/
theorem c9_checksum_total_and_in_range :
    (∀ p : List Nat, ICMPPacket.calculateChecksum p ≤ 65535) ∧
    ICMPPacket.calculateChecksum [] = 65535 := by
  constructor
  · intro p
    unfold ICMPPacket.calculateChecksum ICMPPacket.notMask16
    omega
  · rfl

/-- Claim C10: for every even-length byte buffer, appending two zero
bytes leaves the checksum unchanged. -/
theorem c10_checksum_append_two_zeros (B : List Nat) (h : B.length % 2 = 0) :
    ICMPPacket.calculateChecksum (B ++ [0, 0]) = ICMPPacket.calculateChecksum B := by
  unfold ICMPPacket.calculateChecksum
  rw [sumWords_append_even B [0, 0] h]
  norm_num [ICMPPacket.sumWords]

/-- Witness for claim C10 at the concrete even-length buffer [1, 2]. -/
theorem c10_checksum_append_two_zeros_witness :
    ([1, 2] : List Nat).length % 2 = 0 ∧
    ICMPPacket.calculateChecksum ([1, 2] ++ [0, 0]) =
      ICMPPacket.calculateChecksum [1, 2] :=
  ⟨by decide, c10_checksum_append_two_zeros [1, 2] (by decide)⟩

set_option maxRecDepth 8000

/-- Claim C5: decoding a packet built by `ICMPPacket.create` returns
exactly the supplied values: type 8, code 0, the input identifier,
sequence 1, and the 64-bit timestamp pattern bit for bit; the packet
is exactly 16 bytes long.  The identifier must fit the 16-bit struct
field and the timestamp pattern must fit 64 bits, as in the code. -/
theorem c5_codec_round_trip (idv ts : Nat) (h1 : idv < 65536)
    (h2 : ts < 18446744073709551616) :
    (ICMPPacket.create idv ts).length = 16 ∧
    ICMPPacket.decodeType (ICMPPacket.create idv ts) = 8 ∧
    ICMPPacket.decodeCode (ICMPPacket.create idv ts) = 0 ∧
    ICMPPacket.decodeId (ICMPPacket.create idv ts) = idv ∧
    ICMPPacket.decodeSeq (ICMPPacket.create idv ts) = 1 ∧
    ICMPPacket.decodePayload (ICMPPacket.create idv ts) = ts := by
  rw [ICMPPacket.create_eq]
  refine ⟨rfl, rfl, rfl, ?_, rfl, ?_⟩
  · show idv % 256 + idv / 256 % 256 * 256 = idv
    omega
  · show ts % 256 + ts / 256 % 256 * 256 + ts / 65536 % 256 * 65536 +
      ts / 16777216 % 256 * 16777216 + ts / 4294967296 % 256 * 4294967296 +
      ts / 1099511627776 % 256 * 1099511627776 +
      ts / 281474976710656 % 256 * 281474976710656 +
      ts / 72057594037927936 % 256 * 72057594037927936 = ts
    omega

/-- Witness for claim C5 at identifier 5 and timestamp pattern
123456789. -/
theorem c5_codec_round_trip_witness :
    (5 : Nat) < 65536 ∧ (123456789 : Nat) < 18446744073709551616 ∧
    ((ICMPPacket.create 5 123456789).length = 16 ∧
     ICMPPacket.decodeType (ICMPPacket.create 5 123456789) = 8 ∧
     ICMPPacket.decodeCode (ICMPPacket.create 5 123456789) = 0 ∧
     ICMPPacket.decodeId (ICMPPacket.create 5 123456789) = 5 ∧
     ICMPPacket.decodeSeq (ICMPPacket.create 5 123456789) = 1 ∧
     ICMPPacket.decodePayload (ICMPPacket.create 5 123456789) = 123456789) :=
  ⟨by norm_num, by norm_num,
    c5_codec_round_trip 5 123456789 (by norm_num) (by norm_num)⟩

/-- Claim C8: the packet returned by `create` differs from the
intermediate packet built with checksum field 0 only in bytes 2-3; the
other bytes agree and both encodings are 16 bytes long. -/
theorem c8_frame_only_checksum_bytes_differ (idv ts i : Nat) (hi : i < 16)
    (h2 : i ≠ 2) (h3 : i ≠ 3) :
    (ICMPPacket.create idv ts).length = 16 ∧
    (ICMPPacket.prechecksumPacket idv ts).length = 16 ∧
    (ICMPPacket.create idv ts).getD i 0 =
      (ICMPPacket.prechecksumPacket idv ts).getD i 0 := by
  rw [ICMPPacket.create_eq, ICMPPacket.prechecksumPacket_eq]
  refine ⟨rfl, rfl, ?_⟩
  interval_cases i <;> first | rfl | omega

/-- Claim C1 (code bug): the code folds the carry only once, so its
result diverges from the RFC 1071 Internet checksum on the buffer
ff ff ff ff 01 00, whose word sum 0x1FFFF folds once to 0x10000 and
needs a second fold.  The code returns 0xFFFF where RFC 1071 gives
0xFFFE. -/
theorem c1_single_fold_diverges_from_rfc1071 :
    ICMPPacket.calculateChecksum [255, 255, 255, 255, 1, 0] = 65535 ∧
    Rfc1071.checksum [255, 255, 255, 255, 1, 0] = 65534 := by
  constructor
  · decide
  · rw [Rfc1071.checksum]
    have h : ICMPPacket.sumWords [255, 255, 255, 255, 1, 0] = 131071 := by decide
    rw [h]
    have h2 : Rfc1071.foldCarry 131071 = 1 := by simp [Rfc1071.foldCarry]
    rw [h2]

/-- Claim C2 (code bug): the all-zero 16-byte vector does checksum to
0xFFFF, but the verification invariant fails in general.  For the
buffer ff ff 00 00 ff ff 01 00 (checksum field, bytes 2-3, zeroed) the
code computes 0xFFFF; inserting that value gives
ff ff ff ff ff ff 01 00, whose fully folded ones-complement sum is 1,
not 0xFFFF.  The same happens to a packet built by `create` with
identifier 0xFFFF and timestamp pattern 0xFFFFFFFFFFFFFFF7: the full
encoded packet folds to 1. -/
theorem c2_inserted_checksum_fails_verification :
    ICMPPacket.calculateChecksum (List.replicate 16 0) = 65535 ∧
    ICMPPacket.calculateChecksum [255, 255, 0, 0, 255, 255, 1, 0] = 65535 ∧
    ICMPPacket.insertChecksumField [255, 255, 0, 0, 255, 255, 1, 0]
      (ICMPPacket.calculateChecksum [255, 255, 0, 0, 255, 255, 1, 0]) =
      [255, 255, 255, 255, 255, 255, 1, 0] ∧
    Rfc1071.foldCarry
      (ICMPPacket.sumWords [255, 255, 255, 255, 255, 255, 1, 0]) = 1 ∧
    Rfc1071.foldCarry
      (ICMPPacket.sumWords
        (ICMPPacket.create 65535 18446744073709551607)) = 1 := by
  refine ⟨by decide, by decide, by decide, ?_, ?_⟩
  · have h : ICMPPacket.sumWords [255, 255, 255, 255, 255, 255, 1, 0] = 196606 := by
      decide
    rw [h]
    simp [Rfc1071.foldCarry]
  · have h : ICMPPacket.sumWords
        (ICMPPacket.create 65535 18446744073709551607) = 393211 := by decide
    rw [h]
    simp [Rfc1071.foldCarry]

/-- Open and close counts of the driver loop balance whenever no
transport error is raised before the try block, because the receive
phase sits inside try/finally. -/
theorem runLoop_open_close_balanced {α : Type} [DecidableEq α] (dest : α)
    (outcome : Nat → Traceroute.HopOutcome α)
    (h : ∀ t, outcome t ≠ Traceroute.HopOutcome.sendError) :
    ∀ (r ttl : Nat),
      (Traceroute.runLoop dest outcome ttl r).opens =
        (Traceroute.runLoop dest outcome ttl r).closes ∧
      (Traceroute.runLoop dest outcome ttl r).opens =
        (Traceroute.runLoop dest outcome ttl r).hopsAttempted := by
  intro r
  induction r with
  | zero => intro ttl; exact ⟨rfl, rfl⟩
  | succ n ih =>
    intro ttl
    have hh := h ttl
    cases ho : outcome ttl with
    | sendError => exact absurd ho hh
    | receiveError => simp [Traceroute.runLoop, ho]
    | timeout =>
      have hr := ih (ttl + 1)
      simp [Traceroute.runLoop, ho, Traceroute.consTrace]
      omega
    | success a =>
      by_cases ha : a = dest
      · simp [Traceroute.runLoop, ho, ha]
      · have hr := ih (ttl + 1)
        simp [Traceroute.runLoop, ho, Traceroute.consTrace, ha]
        omega

/-- Claim C3 amended: for every sequence of hop outcomes in which
transport errors are raised only inside the receive phase (success,
timeout, or receive error), socket opens equal socket closes equal
hops attempted.  A transport error raised during `set_ttl` or
`send_packet` falls outside the try/finally and leaks the hop's
socket, so those outcomes are excluded. -/
theorem c3_open_close_balance_without_send_errors {α : Type} [DecidableEq α]
    (dest : α) (outcome : Nat → Traceroute.HopOutcome α) (maxHops : Nat)
    (h : ∀ t, outcome t ≠ Traceroute.HopOutcome.sendError) :
    (Traceroute.run dest outcome maxHops).opens =
      (Traceroute.run dest outcome maxHops).closes ∧
    (Traceroute.run dest outcome maxHops).opens =
      (Traceroute.run dest outcome maxHops).hopsAttempted :=
  runLoop_open_close_balanced dest outcome h maxHops 1

/-- Witness for claim C3 at the always-timeout oracle with four
hops. -/
theorem c3_open_close_balance_witness :
    (∀ t, alwaysTimeout t ≠ Traceroute.HopOutcome.sendError) ∧
    ((Traceroute.run 0 alwaysTimeout 4).opens =
       (Traceroute.run 0 alwaysTimeout 4).closes ∧
     (Traceroute.run 0 alwaysTimeout 4).opens =
       (Traceroute.run 0 alwaysTimeout 4).hopsAttempted) :=
  ⟨fun t => by simp [alwaysTimeout],
    c3_open_close_balance_without_send_errors 0 alwaysTimeout 4
      (fun t => by simp [alwaysTimeout])⟩

/-- Counterexample to claim C3 as stated: when the transport raises
during send on hop 1, the socket opened for that hop is never closed,
so opens and closes differ. -/
theorem c3_counterexample_send_error_leaks_socket :
    (Traceroute.run 0 alwaysSendError 1).opens = 1 ∧
    (Traceroute.run 0 alwaysSendError 1).closes = 0 ∧
    (Traceroute.run 0 alwaysSendError 1).hopsAttempted = 1 := by decide

/-- Induction form of the early-termination property: started at any
TTL with enough iterations left, if the outcome m hops ahead is a
datagram from the destination and every earlier outcome lets the loop
continue, the loop emits exactly m + 1 results, the last one final,
and attempts exactly m + 1 hops. -/
theorem runLoop_stops_at_destination {α : Type} [DecidableEq α] (dest : α)
    (outcome : Nat → Traceroute.HopOutcome α) :
    ∀ (m ttl r : Nat), m < r →
      outcome (ttl + m) = Traceroute.HopOutcome.success dest →
      (∀ j, j < m → Traceroute.isNonFinal dest (outcome (ttl + j)) = true) →
      (Traceroute.runLoop dest outcome ttl r).results.length = m + 1 ∧
      (Traceroute.runLoop dest outcome ttl r).results.getD m ⟨0, none, false⟩ =
        ⟨ttl + m, some dest, true⟩ ∧
      (Traceroute.runLoop dest outcome ttl r).hopsAttempted = m + 1 := by
  intro m
  induction m with
  | zero =>
    intro ttl r hr hout _
    obtain ⟨n, rfl⟩ : ∃ n, r = n + 1 := ⟨r - 1, by omega⟩
    rw [Nat.add_zero] at hout
    simp [Traceroute.runLoop, hout]
  | succ m ih =>
    intro ttl r hr hout hnf
    obtain ⟨n, rfl⟩ : ∃ n, r = n + 1 := ⟨r - 1, by omega⟩
    have h0 : Traceroute.isNonFinal dest (outcome ttl) = true := by
      have h00 := hnf 0 (by omega)
      rwa [Nat.add_zero] at h00
    have hrec := ih (ttl + 1) n (by omega)
      (by rw [show ttl + 1 + m = ttl + (m + 1) from by omega]; exact hout)
      (fun j hj => by
        have hj1 := hnf (j + 1) (by omega)
        rwa [show ttl + (j + 1) = ttl + 1 + j from by omega] at hj1)
    obtain ⟨hl, hg, hh⟩ := hrec
    cases ho : outcome ttl with
    | sendError => rw [ho] at h0; simp [Traceroute.isNonFinal] at h0
    | receiveError => rw [ho] at h0; simp [Traceroute.isNonFinal] at h0
    | timeout =>
      have hT : Traceroute.runLoop dest outcome ttl (n + 1) =
          Traceroute.consTrace ⟨ttl, none, false⟩ ttl
            (Traceroute.runLoop dest outcome (ttl + 1) n) := by
        simp [Traceroute.runLoop, ho]
      rw [hT]
      refine ⟨?_, ?_, ?_⟩
      · simp only [Traceroute.consTrace]
        rw [List.length_cons, hl]
      · simp only [Traceroute.consTrace]
        rw [List.getD_cons_succ, show ttl + (m + 1) = ttl + 1 + m from by omega]
        exact hg
      · simp only [Traceroute.consTrace]
        rw [hh]
        omega
    | success a =>
      rw [ho] at h0
      have ha : ¬(a = dest) := by
        simp [Traceroute.isNonFinal] at h0
        intro had
        simp [had] at h0
      have hT : Traceroute.runLoop dest outcome ttl (n + 1) =
          Traceroute.consTrace ⟨ttl, some a, false⟩ ttl
            (Traceroute.runLoop dest outcome (ttl + 1) n) := by
        simp [Traceroute.runLoop, ho, ha]
      rw [hT]
      refine ⟨?_, ?_, ?_⟩
      · simp only [Traceroute.consTrace]
        rw [List.length_cons, hl]
      · simp only [Traceroute.consTrace]
        rw [List.getD_cons_succ, show ttl + (m + 1) = ttl + 1 + m from by omega]
        exact hg
      · simp only [Traceroute.consTrace]
        rw [hh]
        omega

/-- Claim C6: if the responder for hop k is the destination and every
earlier hop timed out or answered from another address, the driver
emits exactly k hop results, the k-th is marked final, and exactly k
hops are attempted, for any max_hops of at least k. -/
theorem c6_early_termination_at_destination {α : Type} [DecidableEq α]
    (dest : α) (outcome : Nat → Traceroute.HopOutcome α) (maxHops k : Nat)
    (hk : 1 ≤ k) (hmax : k ≤ maxHops)
    (hfin : outcome k = Traceroute.HopOutcome.success dest)
    (hpre : ∀ j, j < k → 1 ≤ j →
      Traceroute.isNonFinal dest (outcome j) = true) :
    (Traceroute.run dest outcome maxHops).results.length = k ∧
    (Traceroute.run dest outcome maxHops).results.getD (k - 1) ⟨0, none, false⟩ =
      ⟨k, some dest, true⟩ ∧
    (Traceroute.run dest outcome maxHops).hopsAttempted = k := by
  obtain ⟨m, rfl⟩ : ∃ m, k = m + 1 := ⟨k - 1, by omega⟩
  have h := runLoop_stops_at_destination dest outcome m 1 maxHops (by omega)
    (by rw [show 1 + m = m + 1 from by omega]; exact hfin)
    (fun j hj => by
      have hp := hpre (j + 1) (by omega) (by omega)
      rwa [show j + 1 = 1 + j from by omega] at hp)
  rw [show 1 + m = m + 1 from by omega] at h
  simpa [Traceroute.run] using h

/-- Witness for claim C6: the destination (address 7) answers on the
third attempt with max_hops 30; exactly three hop results are emitted
and the third is final. -/
theorem c6_early_termination_witness :
    1 ≤ 3 ∧ 3 ≤ 30 ∧
    Traceroute.demoOutcome 3 = Traceroute.HopOutcome.success 7 ∧
    (∀ j, j < 3 → 1 ≤ j →
      Traceroute.isNonFinal 7 (Traceroute.demoOutcome j) = true) ∧
    ((Traceroute.run 7 Traceroute.demoOutcome 30).results.length = 3 ∧
     (Traceroute.run 7 Traceroute.demoOutcome 30).results.getD 2 ⟨0, none, false⟩ =
       ⟨3, some 7, true⟩ ∧
     (Traceroute.run 7 Traceroute.demoOutcome 30).hopsAttempted = 3) :=
  ⟨by decide, by decide, by decide, by decide,
    c6_early_termination_at_destination 7 Traceroute.demoOutcome 30 3
      (by decide) (by decide) (by decide) (by decide)⟩

/-- Claim C7: with a transport that always times out and max_hops 5,
the driver emits exactly five hop results in strictly increasing TTL
order 1..5, none final, sends exactly one probe per TTL, and finishes
normally. -/
theorem c7_all_timeouts_ordered_hops {α : Type} [DecidableEq α] (dest : α) :
    (Traceroute.run dest (fun _ => Traceroute.HopOutcome.timeout) 5).results =
      [⟨1, none, false⟩, ⟨2, none, false⟩, ⟨3, none, false⟩,
       ⟨4, none, false⟩, ⟨5, none, false⟩] ∧
    (Traceroute.run dest (fun _ => Traceroute.HopOutcome.timeout) 5).probes =
      [1, 2, 3, 4, 5] ∧
    (Traceroute.run dest (fun _ => Traceroute.HopOutcome.timeout) 5).hopsAttempted = 5 ∧
    (Traceroute.run dest (fun _ => Traceroute.HopOutcome.timeout) 5).aborted = false :=
  ⟨rfl, rfl, rfl, rfl⟩

/-- Claim C4 amended: when forward resolution fails, no probe is
attempted (no socket opened, nothing sent, no hop line produced), but
the process finishes with the implicit exit code 0, not 1: `run` just
returns after printing the failure. -/
theorem c4_resolution_failure_skips_probing_exits_zero {α : Type}
    [DecidableEq α] (outcome : Nat → Traceroute.HopOutcome α) (maxHops : Nat) :
    (Traceroute.tracerouteMain none outcome maxHops).exitCode = 0 ∧
    (Traceroute.tracerouteMain none outcome maxHops).trace.opens = 0 ∧
    (Traceroute.tracerouteMain none outcome maxHops).trace.probes = [] ∧
    (Traceroute.tracerouteMain none outcome maxHops).trace.results =
      ([] : List (Traceroute.HopResult α)) :=
  ⟨rfl, rfl, rfl, rfl⟩

/-- Counterexample to claim C4 as stated: with resolution failing, the
exit code is 0, not the claimed 1, even though indeed no socket is
opened. -/
theorem c4_counterexample_exit_code_zero :
    (Traceroute.tracerouteMain none alwaysTimeout 30).exitCode ≠ 1 ∧
    (Traceroute.tracerouteMain none alwaysTimeout 30).trace.opens = 0 := by
  decide

/-- Witness for claim C8 at identifier 7, timestamp pattern 42 and
byte index 4. -/
theorem c8_frame_only_checksum_bytes_differ_witness :
    (4 : Nat) < 16 ∧ (4 : Nat) ≠ 2 ∧ (4 : Nat) ≠ 3 ∧
    ((ICMPPacket.create 7 42).length = 16 ∧
     (ICMPPacket.prechecksumPacket 7 42).length = 16 ∧
     (ICMPPacket.create 7 42).getD 4 0 =
       (ICMPPacket.prechecksumPacket 7 42).getD 4 0) :=
  ⟨by decide, by decide, by decide,
    c8_frame_only_checksum_bytes_differ 7 42 4 (by decide) (by decide) (by decide)⟩
